import Mathlib

/-!
Verification of the spargebra SPARQL parser-and-lowering subsystem
(src/spargebra/src/parser.rs) against its natural-language specification.

The IR sum types (NamedNode, BlankNode, Variable, Literal, term patterns,
the graph-pattern algebra, update operations) live in the crate modules
`algebra`, `term`, `query` and `update`, which are not part of the sources
at hand; they are modelled from the specification's data-model section
(spec §3), with fields as used by parser.rs.  All functions below are
translated from parser.rs itself unless their doc comment says
"Modelled from the spec".
-/

/-- Modelled from the spec: an IRI term (spec §3, "a validated absolute or
resolved-relative IRI string"); IRI validation itself lives in the external
oxiri crate and is not modelled. -/
structure NamedNode where
  iri : String
  deriving DecidableEq, Repr

/-- Modelled from the spec: a blank node, "an identifier string scoped to the
parse" (spec §3). -/
structure BlankNode where
  id : String
  deriving DecidableEq, Repr

/-- Modelled from the spec: a variable, "a name string" (spec §3). -/
structure Variable where
  name : String
  deriving DecidableEq, Repr

/-- Modelled from the spec: literals, "one of simple string,
language-tagged string, datatyped" (spec §3). -/
inductive Literal where
  | Simple (value : String)
  | LanguageTaggedString (value : String) (language : String)
  | Typed (value : String) (datatype : NamedNode)
  deriving DecidableEq, Repr

/-- Modelled from the spec: NamedNodePattern = variable | IRI (spec §3). -/
inductive NamedNodePattern where
  | NamedNode (n : NamedNode)
  | Variable (v : Variable)
  deriving DecidableEq, Repr

/-- Modelled from the spec: a graph name for updates: IRI or the default
graph (spec §3 / §4.5.5). -/
inductive GraphName where
  | NamedNode (n : NamedNode)
  | DefaultGraph
  deriving DecidableEq, Repr

/-- Modelled from the spec: GraphNamePattern = variable | IRI | default-graph
(spec §3). -/
inductive GraphNamePattern where
  | NamedNode (n : NamedNode)
  | DefaultGraph
  | Variable (v : Variable)
  deriving DecidableEq, Repr

/-- Modelled from the spec: the target of CLEAR/DROP, following grammar rule
GraphRefAll (GRAPH iri / DEFAULT / NAMED / ALL). -/
inductive GraphTarget where
  | NamedNode (n : NamedNode)
  | DefaultGraph
  | NamedGraphs
  | AllGraphs
  deriving DecidableEq, Repr

mutual
/-- Modelled from the spec: TermPattern = variable | IRI | blank | literal |
nested triple pattern (spec §3). -/
inductive TermPattern where
  | NamedNode (n : NamedNode)
  | BlankNode (b : BlankNode)
  | Literal (l : Literal)
  | Variable (v : Variable)
  | Triple (t : TriplePattern)
/-- Modelled from the spec: a triple pattern (spec §3). -/
inductive TriplePattern where
  | mk (subject : TermPattern) (predicate : NamedNodePattern) (object : TermPattern)
end

/-- Subject accessor of a triple pattern. -/
def TriplePattern.subject : TriplePattern → TermPattern
  | .mk s _ _ => s

/-- Predicate accessor of a triple pattern. -/
def TriplePattern.predicate : TriplePattern → NamedNodePattern
  | .mk _ p _ => p

/-- Object accessor of a triple pattern. -/
def TriplePattern.object : TriplePattern → TermPattern
  | .mk _ _ o => o

/-- Modelled from the spec: QuadPattern, "a triple plus a graph-name
component" (spec §3 and glossary). -/
structure QuadPattern where
  subject : TermPattern
  predicate : NamedNodePattern
  object : TermPattern
  graph_name : GraphNamePattern

mutual
/-- Modelled from the spec: a term pattern with no blank nodes, used for the
delete templates of DeleteInsert (spec §4.5.5 enforces "that no blank nodes
appear"; variables stay allowed, as DELETE templates contain variables). -/
inductive GroundTermPattern where
  | NamedNode (n : NamedNode)
  | Literal (l : Literal)
  | Variable (v : Variable)
  | Triple (t : GroundTriplePattern)
/-- Modelled from the spec: a triple pattern with no blank nodes. -/
inductive GroundTriplePattern where
  | mk (subject : GroundTermPattern) (predicate : NamedNodePattern) (object : GroundTermPattern)
end

/-- Modelled from the spec: a quad pattern with no blank nodes
(DeleteInsert delete templates). -/
structure GroundQuadPattern where
  subject : GroundTermPattern
  predicate : NamedNodePattern
  object : GroundTermPattern
  graph_name : GraphNamePattern

mutual
/-- Modelled from the spec: a concrete RDF term (no variables), as stored by
InsertData (spec §3, §4.5.5). -/
inductive Term where
  | NamedNode (n : NamedNode)
  | BlankNode (b : BlankNode)
  | Literal (l : Literal)
  | Triple (t : Triple)
/-- Modelled from the spec: a concrete RDF triple. -/
inductive Triple where
  | mk (subject : Term) (predicate : NamedNode) (object : Term)
end

mutual
/-- Modelled from the spec: a concrete ground term (no variables, no blank
nodes), as used in VALUES rows and DeleteData (spec §3). -/
inductive GroundTerm where
  | NamedNode (n : NamedNode)
  | Literal (l : Literal)
  | Triple (t : GroundTriple)
/-- Modelled from the spec: GroundTriple, "no variables; literal subject
forbidden" (spec §3). -/
inductive GroundTriple where
  | mk (subject : GroundSubject) (predicate : NamedNode) (object : GroundTerm)
/-- Modelled from the spec: the subject of a ground triple (literal subject
forbidden). -/
inductive GroundSubject where
  | NamedNode (n : NamedNode)
  | Triple (t : GroundTriple)
end

/-- Modelled from the spec: a quad with no variables (InsertData payload). -/
structure Quad where
  subject : Term
  predicate : NamedNode
  object : Term
  graph_name : GraphName

/-- Modelled from the spec: a quad with no variables and no blank nodes
(DeleteData payload). -/
structure GroundQuad where
  subject : GroundSubject
  predicate : NamedNode
  object : GroundTerm
  graph_name : GraphName

/-- Modelled from the spec: the FROM/USING dataset description
(grammar rules DatasetClauses and UsingClause). -/
structure QueryDataset where
  default : List NamedNode
  named : Option (List NamedNode)

/-- Modelled from the spec: property-path expressions,
NamedNode | Reverse | Sequence | Alternative | ZeroOrOne | ZeroOrMore |
OneOrMore | NegatedPropertySet (spec §3). -/
inductive PropertyPathExpression where
  | NamedNode (n : NamedNode)
  | Reverse (p : PropertyPathExpression)
  | Sequence (a b : PropertyPathExpression)
  | Alternative (a b : PropertyPathExpression)
  | ZeroOrOne (p : PropertyPathExpression)
  | ZeroOrMore (p : PropertyPathExpression)
  | OneOrMore (p : PropertyPathExpression)
  | NegatedPropertySet (l : List NamedNode)
  deriving DecidableEq, Repr

/-- Modelled from the spec: the built-in function tags used by
Expression::FunctionCall, as constructed throughout the BuiltInCall grammar
rule of parser.rs. -/
inductive Function where
  | Str | Lang | LangMatches | Datatype | Iri | BNode | Rand | Abs | Ceil
  | Floor | Round | Concat | SubStr | StrLen | Replace | UCase | LCase
  | EncodeForUri | Contains | StrStarts | StrEnds | StrBefore | StrAfter
  | Year | Month | Day | Hours | Minutes | Seconds | Timezone | Tz | Now
  | Uuid | StrUuid | Md5 | Sha1 | Sha256 | Sha384 | Sha512 | StrLang | StrDt
  | IsIri | IsBlank | IsLiteral | IsNumeric | Regex | Triple | Subject
  | Predicate | Object | IsTriple
  | Custom (n : NamedNode)
  deriving Repr

/-- Constructor index of a function tag, used to implement its structural
equality with a term of linear size. -/
def functionCtorIdx : Function → Nat
  | .Str => 0 | .Lang => 1 | .LangMatches => 2 | .Datatype => 3 | .Iri => 4
  | .BNode => 5 | .Rand => 6 | .Abs => 7 | .Ceil => 8 | .Floor => 9
  | .Round => 10 | .Concat => 11 | .SubStr => 12 | .StrLen => 13
  | .Replace => 14 | .UCase => 15 | .LCase => 16 | .EncodeForUri => 17
  | .Contains => 18 | .StrStarts => 19 | .StrEnds => 20 | .StrBefore => 21
  | .StrAfter => 22 | .Year => 23 | .Month => 24 | .Day => 25 | .Hours => 26
  | .Minutes => 27 | .Seconds => 28 | .Timezone => 29 | .Tz => 30 | .Now => 31
  | .Uuid => 32 | .StrUuid => 33 | .Md5 => 34 | .Sha1 => 35 | .Sha256 => 36
  | .Sha384 => 37 | .Sha512 => 38 | .StrLang => 39 | .StrDt => 40
  | .IsIri => 41 | .IsBlank => 42 | .IsLiteral => 43 | .IsNumeric => 44
  | .Regex => 45 | .Triple => 46 | .Subject => 47 | .Predicate => 48
  | .Object => 49 | .IsTriple => 50 | .Custom _ => 51

/-- Structural equality on function tags, mirroring derived PartialEq: two
tags are equal when they are the same constructor, and Custom tags compare
their IRIs. -/
def beqFunction : Function → Function → Bool
  | .Custom a, .Custom b => a == b
  | a, b => functionCtorIdx a == functionCtorIdx b && !(functionCtorIdx a == 51)

mutual
/-- Modelled from the spec: the graph-pattern algebra sum type (spec §3,
"Graph pattern algebra"), with the fields parser.rs supplies to each
constructor. -/
inductive GraphPattern where
  | Bgp (patterns : List TriplePattern)
  | Path (subject : TermPattern) (path : PropertyPathExpression) (object : TermPattern)
  | Join (left : GraphPattern) (right : GraphPattern)
  | LeftJoin (left : GraphPattern) (right : GraphPattern) (expr : Option Expression)
  | Filter (expr : Expression) (inner : GraphPattern)
  | Union (left : GraphPattern) (right : GraphPattern)
  | Graph (graph_name : NamedNodePattern) (inner : GraphPattern)
  | Extend (inner : GraphPattern) (var : Variable) (expr : Expression)
  | Minus (left : GraphPattern) (right : GraphPattern)
  | Service (name : NamedNodePattern) (pattern : GraphPattern) (silent : Bool)
  | Group (inner : GraphPattern) (by_ : List Variable)
      (aggregates : List (Variable × AggregationFunction))
  | OrderBy (inner : GraphPattern) (condition : List OrderComparator)
  | Project (inner : GraphPattern) (projection : List Variable)
  | Distinct (inner : GraphPattern)
  | Reduced (inner : GraphPattern)
  | Slice (inner : GraphPattern) (start : Nat) (length : Option Nat)
  | Table (vars : List Variable) (rows : List (List (Option GroundTerm)))
/-- Modelled from the spec: SPARQL expressions, with the constructors
parser.rs builds in its expression grammar rules. -/
inductive Expression where
  | NamedNode (n : NamedNode)
  | Literal (l : Literal)
  | Variable (v : Variable)
  | Or (a b : Expression)
  | And (a b : Expression)
  | Equal (a b : Expression)
  | SameTerm (a b : Expression)
  | Greater (a b : Expression)
  | GreaterOrEqual (a b : Expression)
  | Less (a b : Expression)
  | LessOrEqual (a b : Expression)
  | In (e : Expression) (l : List Expression)
  | Add (a b : Expression)
  | Subtract (a b : Expression)
  | Multiply (a b : Expression)
  | Divide (a b : Expression)
  | UnaryPlus (e : Expression)
  | UnaryMinus (e : Expression)
  | Not (e : Expression)
  | Exists (p : GraphPattern)
  | Bound (v : Variable)
  | If (a b c : Expression)
  | Coalesce (l : List Expression)
  | FunctionCall (f : Function) (args : List Expression)
/-- Modelled from the spec: aggregation functions COUNT, SUM, MIN, MAX, AVG,
SAMPLE, GROUP_CONCAT, custom (spec glossary), with the fields the Aggregate
grammar rule of parser.rs supplies. -/
inductive AggregationFunction where
  | Count (expr : Option Expression) (distinct : Bool)
  | Sum (expr : Expression) (distinct : Bool)
  | Min (expr : Expression) (distinct : Bool)
  | Max (expr : Expression) (distinct : Bool)
  | Avg (expr : Expression) (distinct : Bool)
  | Sample (expr : Expression) (distinct : Bool)
  | GroupConcat (expr : Expression) (distinct : Bool) (separator : Option String)
  | Custom (name : NamedNode) (expr : Expression) (distinct : Bool)
/-- Modelled from the spec: ORDER BY comparators (ASC/DESC). -/
inductive OrderComparator where
  | Asc (e : Expression)
  | Desc (e : Expression)
end

/-- Modelled from the spec: update operations (spec §3, "Update
operations"). -/
inductive GraphUpdateOperation where
  | Load (silent : Bool) (fromIri : NamedNode) (toGraph : GraphName)
  | Clear (silent : Bool) (graph : GraphTarget)
  | Drop (silent : Bool) (graph : GraphTarget)
  | Create (silent : Bool) (graph : NamedNode)
  | InsertData (data : List Quad)
  | DeleteData (data : List GroundQuad)
  | DeleteInsert (delete : List GroundQuadPattern) (insert : List QuadPattern)
      (usingDataset : Option QueryDataset) (pattern : GraphPattern)

/-- Source enum TripleOrPathPattern of parser.rs: a plain triple or a
subject/path/object element. -/
inductive TripleOrPathPattern where
  | Triple (t : TriplePattern)
  | Path (subject : TermPattern) (path : PropertyPathExpression) (object : TermPattern)

/-- Source enum VariableOrPropertyPath of parser.rs. -/
inductive VariableOrPropertyPath where
  | Variable (v : Variable)
  | PropertyPath (p : PropertyPathExpression)

/-- Source enum PartialGraphPattern of parser.rs: the per-element outcome of
a GroupGraphPatternSub item. -/
inductive PartialGraphPattern where
  | Optional (p : GraphPattern) (e : Option Expression)
  | Minus (p : GraphPattern)
  | Bind (e : Expression) (v : Variable)
  | Filter (e : Expression)
  | Other (p : GraphPattern)

/-- The conversion GraphName → GraphNamePattern (the Rust From impl used by
copy_graph's call sites when passing a GraphName where a GraphNamePattern is
expected). -/
def GraphName.intoPattern : GraphName → GraphNamePattern
  | .NamedNode n => .NamedNode n
  | .DefaultGraph => .DefaultGraph

/-- The conversion GraphName → GraphTarget (the Rust Into used by the Move
and Copy rules when building Drop operations). -/
def GraphName.intoTarget : GraphName → GraphTarget
  | .NamedNode n => .NamedNode n
  | .DefaultGraph => .DefaultGraph

/-- True exactly when a graph pattern is a BGP with an empty triple list;
this is the test the two leading if-lets of new_join perform. -/
def isEmptyBgp : GraphPattern → Bool
  | .Bgp [] => true
  | _ => false

/-- Translation of fn new_join of parser.rs: avoid outputting empty BGPs,
merge two BGPs into one, merge Graph nodes over identical graph names
recursively, and otherwise build a Join node. -/
def new_join (l r : GraphPattern) : GraphPattern :=
  if isEmptyBgp l then r
  else if isEmptyBgp r then l
  else
    match l, r with
    | .Bgp pl, .Bgp pr => .Bgp (pl ++ pr)
    | .Graph g1 li, .Graph g2 ri =>
        if g1 = g2 then .Graph g1 (new_join li ri)
        else .Join (.Graph g1 li) (.Graph g2 ri)
    | l, r => .Join l r

/-- Translation of fn copy_graph of parser.rs: a single DeleteInsert reading
the triple ?s ?p ?o from the source graph (wrapped in Graph when the source
is a named graph) and inserting it into the target. -/
def copy_graph (fromGraph : GraphName) (toGraph : GraphNamePattern) : GraphUpdateOperation :=
  let bgp := GraphPattern.Bgp [.mk (.Variable ⟨"s"⟩) (.Variable ⟨"p"⟩) (.Variable ⟨"o"⟩)]
  .DeleteInsert []
    [{ subject := .Variable ⟨"s"⟩, predicate := .Variable ⟨"p"⟩,
       object := .Variable ⟨"o"⟩, graph_name := toGraph }]
    none
    (match fromGraph with
      | .NamedNode n => .Graph (.NamedNode n) bgp
      | .DefaultGraph => bgp)

/-- Translation of the grammar action of rule Add of parser.rs (the parsed
SILENT flag is bound by the rule but unused by the action). -/
def addOperation (_silent : Bool) (fromGraph toGraph : GraphName) : List GraphUpdateOperation :=
  if fromGraph = toGraph then []
  else [copy_graph fromGraph toGraph.intoPattern]

/-- Translation of the grammar action of rule Move of parser.rs: a Drop of
the target with silent hard-coded to true, the copy, then a Drop of the
source carrying the parsed SILENT flag. -/
def moveOperation (silent : Bool) (fromGraph toGraph : GraphName) : List GraphUpdateOperation :=
  if fromGraph = toGraph then []
  else
    [.Drop true toGraph.intoTarget,
     copy_graph fromGraph toGraph.intoPattern,
     .Drop silent fromGraph.intoTarget]

/-- Translation of the grammar action of rule Copy of parser.rs. -/
def copyOperation (_silent : Bool) (fromGraph toGraph : GraphName) : List GraphUpdateOperation :=
  if fromGraph = toGraph then []
  else
    [.Drop true toGraph.intoTarget,
     copy_graph fromGraph toGraph.intoPattern]

/-- Translation of the grammar actions of rule ServiceGraphPattern of
parser.rs: the first alternative consumes the SILENT keyword, the second
matches its absence; both actions construct Service with silent set to
true. -/
def serviceGraphPattern (silentKeyword : Bool) (name : NamedNodePattern)
    (p : GraphPattern) : PartialGraphPattern :=
  if silentKeyword then .Other (.Service name p true)
  else .Other (.Service name p true)

/-- Translation of the four GROUP_CONCAT alternatives of rule Aggregate of
parser.rs, keyed by whether the DISTINCT keyword and a SEPARATOR clause were
parsed: the separator-bearing alternative without DISTINCT also hard-codes
distinct to true. -/
def groupConcatAggregation (distinctKeyword : Bool) (e : Expression)
    (separator : Option String) : AggregationFunction :=
  match distinctKeyword, separator with
  | true, some s => .GroupConcat e true (some s)
  | true, none => .GroupConcat e true none
  | false, some s => .GroupConcat e true (some s)
  | false, none => .GroupConcat e false none

/-- Modelled from the spec: fn variable() of parser.rs mints a fresh
variable from a 128-bit random hex value; spec §9 states the contract is
only non-collision and licenses a parse-scoped monotonic counter instead,
which we thread through the state.  The name injectively encodes the
counter. -/
def freshVariable (n : Nat) : Variable :=
  ⟨String.mk (List.replicate (n + 1) 'v')⟩

/-- Modelled from the spec: fn bnode() of parser.rs mints a fresh blank node
from a 128-bit random hex value; as with freshVariable we use the threaded
counter (spec §9). -/
def freshBlankNode (n : Nat) : BlankNode :=
  ⟨String.mk (List.replicate (n + 1) 'b')⟩

/-- The struct ParserState of parser.rs.  The two HashSets are modelled as
lists used as sets, the aggregates Vec as a list whose head is the stack
top (the Rust Vec's last element), and the base IRI as a raw string (oxiri
validation is external).  The extra counter field stands in for the global
random source used by fn variable() and fn bnode(), as licensed by spec
§9. -/
structure ParserState where
  base_iri : Option String
  namespaces : List (String × String)
  used_bnodes : List BlankNode
  currently_used_bnodes : List BlankNode
  aggregates : List (List (Variable × AggregationFunction))
  counter : Nat

/-- The two alternatives of grammar rule BlankNode of parser.rs: a parsed
BLANK_NODE_LABEL or an ANON bracket pair. -/
inductive BlankNodeToken where
  | labeled (id : String)
  | anon

/-- Translation of the grammar actions of rule BlankNode of parser.rs: a
labeled blank node is rejected when its label is already in used_bnodes and
otherwise recorded in currently_used_bnodes; an anonymous blank node is
freshly minted with no check against either set. -/
def recognizeBlankNode : BlankNodeToken → ParserState → Except String (BlankNode × ParserState)
  | .labeled id, st =>
    let node : BlankNode := ⟨id⟩
    if node ∈ st.used_bnodes then .error "Already used blank node id"
    else .ok (node, { st with currently_used_bnodes := st.currently_used_bnodes.insert node })
  | .anon, st => .ok (freshBlankNode st.counter, { st with counter := st.counter + 1 })

/-- Translation of the group-close bookkeeping at the end of rule
GroupGraphPatternSub of parser.rs: used_bnodes.extend(currently_used_bnodes)
followed by currently_used_bnodes.clear(). -/
def closeGroupBlankNodes (st : ParserState) : ParserState :=
  { st with
    used_bnodes := st.currently_used_bnodes.foldl (fun acc b => acc.insert b) st.used_bnodes,
    currently_used_bnodes := [] }

/-- Translation of rule Modify_clear of parser.rs, run at the start of every
Modify (DELETE/INSERT ... WHERE) operation: both blank-node sets are
cleared. -/
def modifyClear (st : ParserState) : ParserState :=
  { st with used_bnodes := [], currently_used_bnodes := [] }

/-- Translation of the grammar action of rule BaseDecl of parser.rs. -/
def setBaseIri (iri : String) (st : ParserState) : ParserState :=
  { st with base_iri := some iri }

/-- Translation of the grammar action of rule PrefixDecl of parser.rs
(HashMap::insert, modelled as shadowing cons on an association list). -/
def insertPrefixDecl (ns iriValue : String) (st : ParserState) : ParserState :=
  { st with namespaces := (ns, iriValue) :: st.namespaces }

/-- Translation of rule Selection_init of parser.rs: push an empty aggregate
collector on SELECT entry. -/
def pushAggregateFrame (st : ParserState) : ParserState :=
  { st with aggregates := [] :: st.aggregates }

/-- The state effect of the aggregates.pop() performed by build_select of
parser.rs when the SELECT is assembled. -/
def popAggregateFrame (st : ParserState) : ParserState :=
  { st with aggregates := st.aggregates.tail }

mutual
/-- Structural equality on term patterns, mirroring the derived PartialEq of
the Rust term types (their defining module is not under src/). -/
def beqTermPattern : TermPattern → TermPattern → Bool
  | .NamedNode a, .NamedNode b => a == b
  | .BlankNode a, .BlankNode b => a == b
  | .Literal a, .Literal b => a == b
  | .Variable a, .Variable b => a == b
  | .Triple a, .Triple b => beqTriplePattern a b
  | _, _ => false
/-- Structural equality on triple patterns. -/
def beqTriplePattern : TriplePattern → TriplePattern → Bool
  | .mk s1 p1 o1, .mk s2 p2 o2 =>
    beqTermPattern s1 s2 && p1 == p2 && beqTermPattern o1 o2
end

/-- Structural equality on lists of triple patterns. -/
def beqTriplePatternList : List TriplePattern → List TriplePattern → Bool
  | [], [] => true
  | x :: xs, y :: ys => beqTriplePattern x y && beqTriplePatternList xs ys
  | _, _ => false

mutual
/-- Structural equality on ground terms, mirroring derived PartialEq. -/
def beqGroundTerm : GroundTerm → GroundTerm → Bool
  | .NamedNode a, .NamedNode b => a == b
  | .Literal a, .Literal b => a == b
  | .Triple a, .Triple b => beqGroundTriple a b
  | _, _ => false
/-- Structural equality on ground triples. -/
def beqGroundTriple : GroundTriple → GroundTriple → Bool
  | .mk s1 p1 o1, .mk s2 p2 o2 =>
    beqGroundSubject s1 s2 && p1 == p2 && beqGroundTerm o1 o2
/-- Structural equality on ground-triple subjects. -/
def beqGroundSubject : GroundSubject → GroundSubject → Bool
  | .NamedNode a, .NamedNode b => a == b
  | .Triple a, .Triple b => beqGroundTriple a b
  | _, _ => false
end

/-- Structural equality on optional ground terms (VALUES cells). -/
def beqGroundTermOption : Option GroundTerm → Option GroundTerm → Bool
  | none, none => true
  | some a, some b => beqGroundTerm a b
  | _, _ => false

/-- Structural equality on VALUES rows. -/
def beqGroundTermRow : List (Option GroundTerm) → List (Option GroundTerm) → Bool
  | [], [] => true
  | x :: xs, y :: ys => beqGroundTermOption x y && beqGroundTermRow xs ys
  | _, _ => false

/-- Structural equality on lists of VALUES rows. -/
def beqGroundTermRows : List (List (Option GroundTerm)) → List (List (Option GroundTerm)) → Bool
  | [], [] => true
  | x :: xs, y :: ys => beqGroundTermRow x y && beqGroundTermRows xs ys
  | _, _ => false

set_option maxHeartbeats 3200000 in
mutual
/-- Structural equality on graph patterns, mirroring the derived PartialEq
of the Rust algebra types (algebra.rs is not under src/); it is the
equality the find_map of ParserState::new_aggregation relies on. -/
def beqGraphPattern : GraphPattern → GraphPattern → Bool
  | .Bgp a, .Bgp b => beqTriplePatternList a b
  | .Path s1 p1 o1, .Path s2 p2 o2 =>
    beqTermPattern s1 s2 && p1 == p2 && beqTermPattern o1 o2
  | .Join l1 r1, .Join l2 r2 => beqGraphPattern l1 l2 && beqGraphPattern r1 r2
  | .LeftJoin l1 r1 e1, .LeftJoin l2 r2 e2 =>
    beqGraphPattern l1 l2 && beqGraphPattern r1 r2 && beqExpressionOption e1 e2
  | .Filter e1 i1, .Filter e2 i2 => beqExpression e1 e2 && beqGraphPattern i1 i2
  | .Union l1 r1, .Union l2 r2 => beqGraphPattern l1 l2 && beqGraphPattern r1 r2
  | .Graph g1 i1, .Graph g2 i2 => g1 == g2 && beqGraphPattern i1 i2
  | .Extend i1 v1 e1, .Extend i2 v2 e2 =>
    beqGraphPattern i1 i2 && v1 == v2 && beqExpression e1 e2
  | .Minus l1 r1, .Minus l2 r2 => beqGraphPattern l1 l2 && beqGraphPattern r1 r2
  | .Service n1 p1 s1, .Service n2 p2 s2 =>
    n1 == n2 && beqGraphPattern p1 p2 && s1 == s2
  | .Group i1 b1 a1, .Group i2 b2 a2 =>
    beqGraphPattern i1 i2 && b1 == b2 && beqAggregatePairs a1 a2
  | .OrderBy i1 c1, .OrderBy i2 c2 =>
    beqGraphPattern i1 i2 && beqOrderComparatorList c1 c2
  | .Project i1 p1, .Project i2 p2 => beqGraphPattern i1 i2 && p1 == p2
  | .Distinct i1, .Distinct i2 => beqGraphPattern i1 i2
  | .Reduced i1, .Reduced i2 => beqGraphPattern i1 i2
  | .Slice i1 s1 l1, .Slice i2 s2 l2 =>
    beqGraphPattern i1 i2 && s1 == s2 && l1 == l2
  | .Table v1 r1, .Table v2 r2 => v1 == v2 && beqGroundTermRows r1 r2
  | _, _ => false
/-- Structural equality on expressions. -/
def beqExpression : Expression → Expression → Bool
  | .NamedNode a, .NamedNode b => a == b
  | .Literal a, .Literal b => a == b
  | .Variable a, .Variable b => a == b
  | .Or a1 b1, .Or a2 b2 => beqExpression a1 a2 && beqExpression b1 b2
  | .And a1 b1, .And a2 b2 => beqExpression a1 a2 && beqExpression b1 b2
  | .Equal a1 b1, .Equal a2 b2 => beqExpression a1 a2 && beqExpression b1 b2
  | .SameTerm a1 b1, .SameTerm a2 b2 => beqExpression a1 a2 && beqExpression b1 b2
  | .Greater a1 b1, .Greater a2 b2 => beqExpression a1 a2 && beqExpression b1 b2
  | .GreaterOrEqual a1 b1, .GreaterOrEqual a2 b2 => beqExpression a1 a2 && beqExpression b1 b2
  | .Less a1 b1, .Less a2 b2 => beqExpression a1 a2 && beqExpression b1 b2
  | .LessOrEqual a1 b1, .LessOrEqual a2 b2 => beqExpression a1 a2 && beqExpression b1 b2
  | .In e1 l1, .In e2 l2 => beqExpression e1 e2 && beqExpressionList l1 l2
  | .Add a1 b1, .Add a2 b2 => beqExpression a1 a2 && beqExpression b1 b2
  | .Subtract a1 b1, .Subtract a2 b2 => beqExpression a1 a2 && beqExpression b1 b2
  | .Multiply a1 b1, .Multiply a2 b2 => beqExpression a1 a2 && beqExpression b1 b2
  | .Divide a1 b1, .Divide a2 b2 => beqExpression a1 a2 && beqExpression b1 b2
  | .UnaryPlus e1, .UnaryPlus e2 => beqExpression e1 e2
  | .UnaryMinus e1, .UnaryMinus e2 => beqExpression e1 e2
  | .Not e1, .Not e2 => beqExpression e1 e2
  | .Exists p1, .Exists p2 => beqGraphPattern p1 p2
  | .Bound v1, .Bound v2 => v1 == v2
  | .If a1 b1 c1, .If a2 b2 c2 =>
    beqExpression a1 a2 && beqExpression b1 b2 && beqExpression c1 c2
  | .Coalesce l1, .Coalesce l2 => beqExpressionList l1 l2
  | .FunctionCall f1 a1, .FunctionCall f2 a2 => beqFunction f1 f2 && beqExpressionList a1 a2
  | _, _ => false
/-- Structural equality on optional expressions. -/
def beqExpressionOption : Option Expression → Option Expression → Bool
  | none, none => true
  | some a, some b => beqExpression a b
  | _, _ => false
/-- Structural equality on lists of expressions. -/
def beqExpressionList : List Expression → List Expression → Bool
  | [], [] => true
  | x :: xs, y :: ys => beqExpression x y && beqExpressionList xs ys
  | _, _ => false
/-- Structural equality on aggregation functions, the comparison used by
ParserState::new_aggregation of parser.rs. -/
def beqAggregationFunction : AggregationFunction → AggregationFunction → Bool
  | .Count e1 d1, .Count e2 d2 => beqExpressionOption e1 e2 && d1 == d2
  | .Sum e1 d1, .Sum e2 d2 => beqExpression e1 e2 && d1 == d2
  | .Min e1 d1, .Min e2 d2 => beqExpression e1 e2 && d1 == d2
  | .Max e1 d1, .Max e2 d2 => beqExpression e1 e2 && d1 == d2
  | .Avg e1 d1, .Avg e2 d2 => beqExpression e1 e2 && d1 == d2
  | .Sample e1 d1, .Sample e2 d2 => beqExpression e1 e2 && d1 == d2
  | .GroupConcat e1 d1 s1, .GroupConcat e2 d2 s2 =>
    beqExpression e1 e2 && d1 == d2 && s1 == s2
  | .Custom n1 e1 d1, .Custom n2 e2 d2 => n1 == n2 && beqExpression e1 e2 && d1 == d2
  | _, _ => false
/-- Structural equality on ORDER BY comparators. -/
def beqOrderComparator : OrderComparator → OrderComparator → Bool
  | .Asc e1, .Asc e2 => beqExpression e1 e2
  | .Desc e1, .Desc e2 => beqExpression e1 e2
  | _, _ => false
/-- Structural equality on lists of ORDER BY comparators. -/
def beqOrderComparatorList : List OrderComparator → List OrderComparator → Bool
  | [], [] => true
  | x :: xs, y :: ys => beqOrderComparator x y && beqOrderComparatorList xs ys
  | _, _ => false
/-- Structural equality on aggregate-collector entries. -/
def beqAggregatePairs : List (Variable × AggregationFunction) →
    List (Variable × AggregationFunction) → Bool
  | [], [] => true
  | (v1, a1) :: xs, (v2, a2) :: ys =>
    v1 == v2 && beqAggregationFunction a1 a2 && beqAggregatePairs xs ys
  | _, _ => false
end

/-- The find_map of ParserState::new_aggregation of parser.rs: the variable
of the first collector entry whose aggregation function is structurally
equal to the candidate. -/
def findAggregateVariable : List (Variable × AggregationFunction) → AggregationFunction →
    Option Variable
  | [], _ => none
  | (v, a) :: rest, agg =>
    if beqAggregationFunction a agg then some v else findAggregateVariable rest agg

/-- Translation of fn ParserState::new_aggregation of parser.rs: error when
the aggregate stack is empty; otherwise reuse the variable of a structurally
equal aggregate already collected in the top frame, or mint a fresh variable
and append the new entry to the top frame. -/
def new_aggregation (agg : AggregationFunction) (st : ParserState) :
    Except String (Variable × ParserState) :=
  match st.aggregates with
  | [] => .error "Unexpected aggregate"
  | top :: rest =>
    match findAggregateVariable top agg with
    | some v => .ok (v, st)
    | none =>
      let new_var := freshVariable st.counter
      .ok (new_var,
        { st with aggregates := (top ++ [(new_var, agg)]) :: rest, counter := st.counter + 1 })

mutual
/-- Modelled from the spec: the failable conversion from term patterns to
ground term patterns used by GroundQuadPattern::try_from (term module not
under src/): per spec §4.5.5 it enforces "that no blank nodes appear" and
recurses into nested triple patterns; variables pass through. -/
def groundTermPattern? : TermPattern → Option GroundTermPattern
  | .NamedNode n => some (.NamedNode n)
  | .BlankNode _ => none
  | .Literal l => some (.Literal l)
  | .Variable v => some (.Variable v)
  | .Triple t => (groundTriplePattern? t).map .Triple
/-- Modelled from the spec: the failable conversion from triple patterns to
ground triple patterns. -/
def groundTriplePattern? : TriplePattern → Option GroundTriplePattern
  | .mk s p o =>
    (groundTermPattern? s).bind fun gs =>
      (groundTermPattern? o).map fun go => .mk gs p go
end

/-- Modelled from the spec: GroundQuadPattern::try_from on a quad pattern
(fails exactly when a blank node appears in the subject or object). -/
def groundQuadPattern? (q : QuadPattern) : Option GroundQuadPattern :=
  (groundTermPattern? q.subject).bind fun gs =>
    (groundTermPattern? q.object).map fun go =>
      { subject := gs, predicate := q.predicate, object := go, graph_name := q.graph_name }

/-- The per-quad collect step of the DeleteWhere action of parser.rs
(collect over Result): convert every quad or fail on the first blank
node. -/
def groundQuadPatterns? : List QuadPattern → Option (List GroundQuadPattern)
  | [] => some []
  | q :: rest =>
    (groundQuadPattern? q).bind fun g => (groundQuadPatterns? rest).map (g :: ·)

/-- The per-quad pattern built by the DeleteWhere action of parser.rs: a
single-triple BGP, wrapped in a Graph node when the quad carries a named or
variable graph name. -/
def quadPatternBgp (q : QuadPattern) : GraphPattern :=
  let bgp := GraphPattern.Bgp [.mk q.subject q.predicate q.object]
  match q.graph_name with
  | .NamedNode graph_name => .Graph (.NamedNode graph_name) bgp
  | .DefaultGraph => bgp
  | .Variable graph_name => .Graph (.Variable graph_name) bgp

/-- Translation of the grammar action of rule DeleteWhere of parser.rs: fold
the per-quad BGPs with new_join starting from the empty BGP, then build the
delete template, failing when a blank node appears. -/
def deleteWhereOperation (d : List QuadPattern) : Except String (List GraphUpdateOperation) :=
  let pattern := (d.map quadPatternBgp).foldl new_join (.Bgp [])
  match groundQuadPatterns? d with
  | some delete => .ok [.DeleteInsert delete [] none pattern]
  | none => .error "Blank nodes are not allowed in DELETE WHERE"

mutual
/-- True when a blank node occurs anywhere in a term pattern. -/
def termPatternHasBlankNode : TermPattern → Bool
  | .BlankNode _ => true
  | .Triple t => triplePatternHasBlankNode t
  | _ => false
/-- True when a blank node occurs anywhere in a triple pattern. -/
def triplePatternHasBlankNode : TriplePattern → Bool
  | .mk s _ o => termPatternHasBlankNode s || termPatternHasBlankNode o
end

/-- True when a blank node occurs anywhere in a quad pattern. -/
def quadPatternHasBlankNode (q : QuadPattern) : Bool :=
  termPatternHasBlankNode q.subject || termPatternHasBlankNode q.object

/-- True when a blank node occurs anywhere in a list of quad patterns. -/
def quadsHaveBlankNode (d : List QuadPattern) : Bool :=
  d.any quadPatternHasBlankNode

mutual
/-- The canonical embedding of ground term patterns back into term patterns
(the inverse direction of groundTermPattern?). -/
def GroundTermPattern.toTermPattern : GroundTermPattern → TermPattern
  | .NamedNode n => .NamedNode n
  | .Literal l => .Literal l
  | .Variable v => .Variable v
  | .Triple t => .Triple t.toTriplePattern
/-- The canonical embedding of ground triple patterns back into triple
patterns. -/
def GroundTriplePattern.toTriplePattern : GroundTriplePattern → TriplePattern
  | .mk s p o => .mk s.toTermPattern p o.toTermPattern
end

/-- The canonical embedding of ground quad patterns back into quad
patterns. -/
def GroundQuadPattern.toQuadPattern (q : GroundQuadPattern) : QuadPattern :=
  { subject := q.subject.toTermPattern, predicate := q.predicate,
    object := q.object.toTermPattern, graph_name := q.graph_name }

/-- The UTF-8 encoded length of a character, as Rust's char::len_utf8. -/
def utf8Len (c : Char) : Nat :=
  if c.toNat < 0x80 then 1
  else if c.toNat < 0x800 then 2
  else if c.toNat < 0x10000 then 3
  else 4

/-- The characters covered by the first n bytes of the UTF-8 encoding of a
character list, or none when byte position n falls strictly inside a
character.  This models the Rust string slice buffer[i..i+n]: such a slice
panics when its end is not a character boundary, which the none value
records. -/
def sliceFirstBytes : Nat → List Char → Option (List Char)
  | 0, _ => some []
  | _ + 1, [] => none
  | n + 1, c :: cs =>
    if utf8Len c ≤ n + 1 then (sliceFirstBytes (n + 1 - utf8Len c) cs).map (c :: ·)
    else none

/-- True for an ASCII hexadecimal digit. -/
def isHexDigit (c : Char) : Bool :=
  (('0' ≤ c) && (c ≤ '9')) || (('a' ≤ c) && (c ≤ 'f')) || (('A' ≤ c) && (c ≤ 'F'))

/-- Numeric value of an ASCII hexadecimal digit. -/
def hexDigitVal (c : Char) : Nat :=
  if ('0' ≤ c) && (c ≤ '9') then c.toNat - '0'.toNat
  else if ('a' ≤ c) && (c ≤ 'f') then c.toNat - 'a'.toNat + 10
  else c.toNat - 'A'.toNat + 10

/-- The value of a non-empty all-hexadecimal digit string, or none. -/
def hexValue? : List Char → Option Nat
  | [] => none
  | ds =>
    if ds.all isHexDigit then
      some (ds.foldl (fun acc c => acc * 16 + hexDigitVal c) 0)
    else none

/-- Model of Rust's u32::from_str_radix(s, 16) for the at-most-8-character
slices taken by the unicode unescaper (so u32 overflow cannot occur): an
optional leading plus sign is allowed; a leading minus sign on the unsigned
type succeeds only when every digit is zero. -/
def fromStrRadix16? : List Char → Option Nat
  | [] => none
  | '+' :: rest => hexValue? rest
  | '-' :: rest =>
    match hexValue? rest with
    | some 0 => some 0
    | _ => none
  | s => hexValue? s

/-- Model of Rust's char::from_u32: none on surrogates and values above the
maximum scalar value. -/
def charFromU32? (n : Nat) : Option Char :=
  if 0xD800 ≤ n ∧ n ≤ 0xDFFF then none
  else if 0x10FFFF < n then none
  else some (Char.ofNat n)

/-- Translation of the UnescapeUnicodeCharIterator of parser.rs, as the
function from the input character sequence to the emitted character
sequence.  A none result records a panic of the Rust code: after a
backslash-u escape the iterator slices its buffer with the fixed byte range
1..5 (1..9 for backslash-U), and that slice panics when the bytes after the
escape do not end on a character boundary, which sliceFirstBytes reports.
On a malformed escape the buffer is not cleared, so the backslash is
followed by the buffered characters, reproducing the Rust draining
behaviour; when the input ends inside an escape the iterator returns the
backslash and then drains the buffer. -/
def unescapeUnicodeChars : List Char → Option (List Char)
  | [] => some []
  | '\\' :: 'u' :: c1 :: c2 :: c3 :: c4 :: rest =>
    match sliceFirstBytes 4 [c1, c2, c3, c4] with
    | none => none
    | some slice =>
      match (fromStrRadix16? slice).bind charFromU32? with
      | some c => (unescapeUnicodeChars rest).map (fun r => c :: r)
      | none =>
        (unescapeUnicodeChars rest).map (fun r => '\\' :: 'u' :: c1 :: c2 :: c3 :: c4 :: r)
  | '\\' :: 'u' :: rest => some ('\\' :: 'u' :: rest)
  | '\\' :: 'U' :: c1 :: c2 :: c3 :: c4 :: c5 :: c6 :: c7 :: c8 :: rest =>
    match sliceFirstBytes 8 [c1, c2, c3, c4, c5, c6, c7, c8] with
    | none => none
    | some slice =>
      match (fromStrRadix16? slice).bind charFromU32? with
      | some c => (unescapeUnicodeChars rest).map (fun r => c :: r)
      | none =>
        (unescapeUnicodeChars rest).map
          (fun r => '\\' :: 'U' :: c1 :: c2 :: c3 :: c4 :: c5 :: c6 :: c7 :: c8 :: r)
  | '\\' :: 'U' :: rest => some ('\\' :: 'U' :: rest)
  | '\\' :: c :: rest => (unescapeUnicodeChars rest).map (fun r => '\\' :: c :: r)
  | ['\\'] => some ['\\']
  | c :: rest => (unescapeUnicodeChars rest).map (fun r => c :: r)

/-- Translation of fn needs_unescape_unicode_codepoints of parser.rs.  The
Rust code scans adjacent byte pairs for a backslash followed by u or U; in
well-formed UTF-8 those ASCII bytes occur only as whole characters, so the
scan is equivalent to scanning adjacent character pairs. -/
def needsUnescapeUnicodeCodepoints : List Char → Bool
  | a :: b :: rest =>
    (((b == 'u') || (b == 'U')) && (a == '\\')) || needsUnescapeUnicodeCodepoints (b :: rest)
  | _ => false

/-- Translation of fn unescape_unicode_codepoints of parser.rs, the
preprocessor parse_query and parse_update run over the full input before
recognition; none records a panic. -/
def unescape_unicode_codepoints (input : List Char) : Option (List Char) :=
  if needsUnescapeUnicodeCodepoints input then unescapeUnicodeChars input
  else some input

/-- Source struct AnnotatedTermPath of parser.rs: a term together with the
annotation blocks attached to it, each annotation pairing a verb (variable
or property path) with its annotated objects. -/
inductive AnnotatedTermPath where
  | mk (term : TermPattern) (annotations : List (VariableOrPropertyPath × List AnnotatedTermPath))

/-- Term accessor of an annotated term. -/
def AnnotatedTermPath.term : AnnotatedTermPath → TermPattern
  | .mk t _ => t

/-- Annotations accessor of an annotated term. -/
def AnnotatedTermPath.annotations : AnnotatedTermPath →
    List (VariableOrPropertyPath × List AnnotatedTermPath)
  | .mk _ a => a

mutual
/-- Size measure of an annotated term, used for the termination of the
annotation-processing recursion. -/
def annotatedTermSize : AnnotatedTermPath → Nat
  | .mk _ anns => 1 + annotationPairsSize anns
/-- Size measure of an annotation list. -/
def annotationPairsSize : List (VariableOrPropertyPath × List AnnotatedTermPath) → Nat
  | [] => 0
  | (_, os) :: rest => 1 + annotatedTermListSize os + annotationPairsSize rest
/-- Size measure of a list of annotated terms. -/
def annotatedTermListSize : List AnnotatedTermPath → Nat
  | [] => 0
  | o :: os => annotatedTermSize o + annotatedTermListSize os
end

mutual
/-- Translation of fn add_to_triple_or_path_patterns of parser.rs: a
variable or named-node predicate yields a plain (possibly annotated)
triple; Reverse recurses with subject and object swapped, carrying the
annotations along; Sequence introduces a fresh blank node and recurses on
both halves after rejecting annotations; every other path shape emits a
Path element after rejecting annotations.  The mutably grown Vec of
patterns is threaded in and out, as is the fresh-name counter standing in
for the random source of fn bnode() (spec §9). -/
def add_to_triple_or_path_patterns (subject : TermPattern)
    (predicate : VariableOrPropertyPath) (object : AnnotatedTermPath)
    (patterns : List TripleOrPathPattern) (fresh : Nat) :
    Except String (List TripleOrPathPattern × Nat) :=
  match predicate with
  | .Variable p => add_triple_to_triple_or_path_patterns subject (.Variable p) object patterns fresh
  | .PropertyPath pp =>
    match pp with
    | .NamedNode p =>
      add_triple_to_triple_or_path_patterns subject (.NamedNode p) object patterns fresh
    | .Reverse p =>
      add_to_triple_or_path_patterns object.term (.PropertyPath p)
        (.mk subject object.annotations) patterns fresh
    | .Sequence a b =>
      match h : object.annotations with
      | _ :: _ => .error "Annotations are not allowed on property paths"
      | [] =>
        let middle := freshBlankNode fresh
        match add_to_triple_or_path_patterns subject (.PropertyPath a)
            (.mk (.BlankNode middle) []) patterns (fresh + 1) with
        | .error e => .error e
        | .ok (patterns1, fresh1) =>
          add_to_triple_or_path_patterns (.BlankNode middle) (.PropertyPath b)
            (.mk object.term []) patterns1 fresh1
    | path =>
      match object.annotations with
      | _ :: _ => .error "Annotations are not allowed on property paths"
      | [] => .ok (patterns ++ [.Path subject path object.term], fresh)
termination_by (annotationPairsSize object.annotations, sizeOf predicate, 2)
decreasing_by
  all_goals simp_wf
  all_goals simp [Prod.lex_def, AnnotatedTermPath.annotations, annotationPairsSize,
    annotatedTermListSize]
  all_goals omega
/-- Translation of fn add_triple_to_triple_or_path_patterns of parser.rs:
build the triple, attach every annotation to the reified triple, then push
the triple itself. -/
def add_triple_to_triple_or_path_patterns (subject : TermPattern)
    (predicate : NamedNodePattern) (object : AnnotatedTermPath)
    (patterns : List TripleOrPathPattern) (fresh : Nat) :
    Except String (List TripleOrPathPattern × Nat) :=
  match addAnnotationsToReifiedTriple (.Triple (.mk subject predicate object.term))
      object.annotations patterns fresh with
  | .error e => .error e
  | .ok (patterns1, fresh1) =>
    .ok (patterns1 ++ [.Triple (.mk subject predicate object.term)], fresh1)
termination_by (annotationPairsSize object.annotations, 0, 1)
decreasing_by
  all_goals simp_wf
  all_goals simp [Prod.lex_def, AnnotatedTermPath.annotations, annotationPairsSize,
    annotatedTermListSize]
  all_goals omega
/-- The nested for-loops of fn add_triple_to_triple_or_path_patterns of
parser.rs: for every annotation pair and every annotated object, attach the
object to the reified triple. -/
def addAnnotationsToReifiedTriple (reified : TermPattern)
    (anns : List (VariableOrPropertyPath × List AnnotatedTermPath))
    (patterns : List TripleOrPathPattern) (fresh : Nat) :
    Except String (List TripleOrPathPattern × Nat) :=
  match anns with
  | [] => .ok (patterns, fresh)
  | (_, []) :: rest => addAnnotationsToReifiedTriple reified rest patterns fresh
  | (p, o :: os) :: rest =>
    match add_to_triple_or_path_patterns reified p o patterns fresh with
    | .error e => .error e
    | .ok (patterns1, fresh1) =>
      addAnnotationsToReifiedTriple reified ((p, os) :: rest) patterns1 fresh1
termination_by (annotationPairsSize anns, 0, 0)
decreasing_by
  all_goals simp_wf
  all_goals try obtain ⟨t0, anns0⟩ := o
  all_goals simp [Prod.lex_def, AnnotatedTermPath.annotations, annotationPairsSize,
    annotatedTermListSize, annotatedTermSize]
  all_goals omega
end

mutual
/-- Whether attaching the given annotations to an element whose predicate
position holds the given verb succeeds: a variable or named-node verb
accepts annotations whose nested annotations are in turn acceptable, a
Reverse verb defers to the path below it, and every other path shape
accepts only an empty annotation list. -/
def annotationsAllowed : VariableOrPropertyPath →
    List (VariableOrPropertyPath × List AnnotatedTermPath) → Bool
  | .Variable _, anns => annotationPairsAllowed anns
  | .PropertyPath (.NamedNode _), anns => annotationPairsAllowed anns
  | .PropertyPath (.Reverse p), anns => annotationsAllowed (.PropertyPath p) anns
  | .PropertyPath _, anns => anns.isEmpty
termination_by p anns => (annotationPairsSize anns, sizeOf p, 1)
decreasing_by
  all_goals simp_wf
  all_goals simp [Prod.lex_def, annotationPairsSize, annotatedTermListSize]
  all_goals omega
/-- Whether every annotation pair in a list is acceptable. -/
def annotationPairsAllowed :
    List (VariableOrPropertyPath × List AnnotatedTermPath) → Bool
  | [] => true
  | (p, os) :: rest => annotationObjectsAllowed p os && annotationPairsAllowed rest
termination_by anns => (annotationPairsSize anns, 0, 0)
decreasing_by
  all_goals simp_wf
  all_goals simp [Prod.lex_def, annotationPairsSize, annotatedTermListSize]
  all_goals omega
/-- Whether every annotated object under one verb is acceptable. -/
def annotationObjectsAllowed : VariableOrPropertyPath → List AnnotatedTermPath → Bool
  | _, [] => true
  | p, o :: os => annotationsAllowed p o.annotations && annotationObjectsAllowed p os
termination_by p os => (annotatedTermListSize os, sizeOf p, 2)
decreasing_by
  all_goals simp_wf
  all_goals try obtain ⟨t0, anns0⟩ := o
  all_goals simp [Prod.lex_def, AnnotatedTermPath.annotations, annotationPairsSize,
    annotatedTermListSize, annotatedTermSize]
  all_goals omega
end

/-- True exactly on successful results. -/
def exceptIsOk {α : Type} (r : Except String α) : Bool :=
  match r with
  | .ok _ => true
  | .error _ => false

/-- True exactly when both graph patterns are BGPs (the first merge arm of
the match of new_join). -/
def bothBgps : GraphPattern → GraphPattern → Bool
  | .Bgp _, .Bgp _ => true
  | _, _ => false

/-- True exactly when both graph patterns are Graph nodes over the same
graph name (the guarded second arm of the match of new_join). -/
def bothGraphsSameName : GraphPattern → GraphPattern → Bool
  | .Graph g1 _, .Graph g2 _ => g1 == g2
  | _, _ => false

/-- The state transitions parser.rs performs on the ParserState during
recognition of a query or an update: BASE and PREFIX declarations, the
aggregate-stack push of SELECT entry and pop of SELECT assembly, aggregate
registration, blank-node recognition, the blank-node bookkeeping at group
close, and the clearing done at the start of every Modify operation. -/
inductive ParserStateStep : ParserState → ParserState → Prop where
  | base (iri : String) (st : ParserState) : ParserStateStep st (setBaseIri iri st)
  | declNamespace (ns iriValue : String) (st : ParserState) :
      ParserStateStep st (insertPrefixDecl ns iriValue st)
  | selectionInit (st : ParserState) : ParserStateStep st (pushAggregateFrame st)
  | selectPop (st : ParserState) : ParserStateStep st (popAggregateFrame st)
  | aggregation (agg : AggregationFunction) (v : Variable) (st st' : ParserState) :
      new_aggregation agg st = .ok (v, st') → ParserStateStep st st'
  | blankNode (tok : BlankNodeToken) (b : BlankNode) (st st' : ParserState) :
      recognizeBlankNode tok st = .ok (b, st') → ParserStateStep st st'
  | groupClose (st : ParserState) : ParserStateStep st (closeGroupBlankNodes st)
  | modify (st : ParserState) : ParserStateStep st (modifyClear st)

/-- The state transitions reachable while recognizing a query (parse_query):
every ParserStateStep except the Modify clearing, whose grammar rule is
reachable only from the update entry point. -/
inductive QueryParserStateStep : ParserState → ParserState → Prop where
  | base (iri : String) (st : ParserState) : QueryParserStateStep st (setBaseIri iri st)
  | declNamespace (ns iriValue : String) (st : ParserState) :
      QueryParserStateStep st (insertPrefixDecl ns iriValue st)
  | selectionInit (st : ParserState) : QueryParserStateStep st (pushAggregateFrame st)
  | selectPop (st : ParserState) : QueryParserStateStep st (popAggregateFrame st)
  | aggregation (agg : AggregationFunction) (v : Variable) (st st' : ParserState) :
      new_aggregation agg st = .ok (v, st') → QueryParserStateStep st st'
  | blankNode (tok : BlankNodeToken) (b : BlankNode) (st st' : ParserState) :
      recognizeBlankNode tok st = .ok (b, st') → QueryParserStateStep st st'
  | groupClose (st : ParserState) : QueryParserStateStep st (closeGroupBlankNodes st)

theorem isEmptyBgp_eq_true_iff (p : GraphPattern) : isEmptyBgp p = true ↔ p = .Bgp [] := by
  cases p <;> simp [isEmptyBgp]
  rename_i l
  cases l <;> simp [isEmptyBgp]

/-- C2: new_join returns the other side when either side is an empty BGP
(so the empty BGP is a left and right identity), concatenates the triple
lists when both sides are BGPs, fuses Graph nodes over the same graph name
and recurses on their inner patterns, and produces a Join node in every
other case. -/
theorem new_join_spec :
    (∀ r, new_join (.Bgp []) r = r) ∧
    (∀ l, new_join l (.Bgp []) = l) ∧
    (∀ pl pr, new_join (.Bgp pl) (.Bgp pr) = .Bgp (pl ++ pr)) ∧
    (∀ g li ri, new_join (.Graph g li) (.Graph g ri) = .Graph g (new_join li ri)) ∧
    (∀ l r, isEmptyBgp l = false → isEmptyBgp r = false → bothBgps l r = false →
      bothGraphsSameName l r = false → new_join l r = .Join l r) := by
  refine ⟨?_, ?_, ?_, ?_, ?_⟩
  · intro r
    rw [new_join.eq_def]
    simp [isEmptyBgp]
  · intro l
    by_cases hl : isEmptyBgp l = true
    · rw [(isEmptyBgp_eq_true_iff l).mp hl]
      rw [new_join.eq_def]
      simp [isEmptyBgp]
    · rw [new_join.eq_def]
      simp only [Bool.not_eq_true] at hl
      simp only [hl, Bool.false_eq_true, if_false]
      simp [isEmptyBgp]
  · intro pl pr
    cases pl with
    | nil =>
      rw [new_join.eq_def]
      simp [isEmptyBgp]
    | cons a as1 =>
      cases pr with
      | nil =>
        rw [new_join.eq_def]
        simp [isEmptyBgp]
      | cons b bs =>
        rw [new_join.eq_def]
        simp [isEmptyBgp]
  · intro g li ri
    rw [new_join.eq_def]
    simp [isEmptyBgp]
  · intro l r h1 h2 h3 h4
    rw [new_join.eq_def]
    simp only [h1, h2, Bool.false_eq_true, if_false]
    split
    · rename_i pl pr
      simp [bothBgps] at h3
    · rename_i g1 li g2 ri
      simp [bothGraphsSameName] at h4
      rw [if_neg h4]
    · rfl

/-- Witness for C2: a concrete fall-through pair lands in the Join case. -/
theorem new_join_spec_witness :
    new_join (.Distinct (.Bgp [])) (.Reduced (.Bgp [])) =
      .Join (.Distinct (.Bgp [])) (.Reduced (.Bgp [])) :=
  new_join_spec.2.2.2.2 _ _ rfl rfl rfl rfl

/-- C3: ADD with equal source and target parses to no operations; with
distinct graphs it parses to exactly the copy DeleteInsert reading
?s ?p ?o from the source (inside Graph when the source is named) and
inserting into the target.  MOVE with distinct graphs parses to exactly
three operations: a Drop of the target that is always silent, the same
copy, and a Drop of the source carrying the parsed SILENT flag. -/
theorem add_move_rewriting :
    (∀ silent g, addOperation silent g g = []) ∧
    (∀ silent fromGraph toGraph, fromGraph ≠ toGraph →
      addOperation silent fromGraph toGraph = [copy_graph fromGraph toGraph.intoPattern]) ∧
    (∀ n toGraph, copy_graph (.NamedNode n) toGraph =
      .DeleteInsert []
        [{ subject := .Variable ⟨"s"⟩, predicate := .Variable ⟨"p"⟩,
           object := .Variable ⟨"o"⟩, graph_name := toGraph }]
        none
        (.Graph (.NamedNode n)
          (.Bgp [.mk (.Variable ⟨"s"⟩) (.Variable ⟨"p"⟩) (.Variable ⟨"o"⟩)]))) ∧
    (∀ toGraph, copy_graph .DefaultGraph toGraph =
      .DeleteInsert []
        [{ subject := .Variable ⟨"s"⟩, predicate := .Variable ⟨"p"⟩,
           object := .Variable ⟨"o"⟩, graph_name := toGraph }]
        none
        (.Bgp [.mk (.Variable ⟨"s"⟩) (.Variable ⟨"p"⟩) (.Variable ⟨"o"⟩)])) ∧
    (∀ silent fromGraph toGraph, fromGraph ≠ toGraph →
      moveOperation silent fromGraph toGraph =
        [.Drop true toGraph.intoTarget,
         copy_graph fromGraph toGraph.intoPattern,
         .Drop silent fromGraph.intoTarget]) := by
  refine ⟨?_, ?_, ?_, ?_, ?_⟩
  · intro silent g
    simp [addOperation]
  · intro silent f t h
    simp [addOperation, h]
  · intro n t
    rfl
  · intro t
    rfl
  · intro silent f t h
    simp [moveOperation, h]

/-- Witness for C3: MOVE from the default graph to a named graph with the
SILENT keyword absent. -/
theorem add_move_rewriting_witness :
    moveOperation false .DefaultGraph (.NamedNode ⟨"g"⟩) =
      [.Drop true (GraphName.NamedNode ⟨"g"⟩).intoTarget,
       copy_graph .DefaultGraph (GraphName.NamedNode ⟨"g"⟩).intoPattern,
       .Drop false GraphName.DefaultGraph.intoTarget] :=
  add_move_rewriting.2.2.2.2 false .DefaultGraph (.NamedNode ⟨"g"⟩) (by decide)

/-- C9: both alternatives of the SERVICE rule, with and without the SILENT
keyword, construct a Service node whose silent field is true, so no parse of
a SERVICE clause yields silent = false. -/
theorem service_always_silent :
    ∀ (silentKeyword : Bool) (name : NamedNodePattern) (p : GraphPattern),
      serviceGraphPattern silentKeyword name p = .Other (.Service name p true) := by
  intro silentKeyword name p
  cases silentKeyword <;> rfl

/-- C10: GROUP_CONCAT with a separator yields distinct = true whether or not
the DISTINCT keyword was written, while GROUP_CONCAT without separator and
without DISTINCT yields distinct = false. -/
theorem group_concat_separator_forces_distinct :
    ∀ (e : Expression) (s : String),
      groupConcatAggregation false e (some s) = .GroupConcat e true (some s) ∧
      groupConcatAggregation true e (some s) = .GroupConcat e true (some s) ∧
      groupConcatAggregation false e none = .GroupConcat e false none := by
  intro e s
  exact ⟨rfl, rfl, rfl⟩

/-- C4: recognizing a labeled blank node whose label is in used_bnodes (its
scope having closed) is a syntax error; when the label is not in
used_bnodes, recognition succeeds, and a second occurrence against the
resulting state succeeds again and denotes the same blank node with the
state unchanged; anonymous blank nodes always succeed without consulting
either set. -/
theorem blank_node_scoping :
    (∀ (id : String) (st : ParserState), (⟨id⟩ : BlankNode) ∈ st.used_bnodes →
      recognizeBlankNode (.labeled id) st = .error "Already used blank node id") ∧
    (∀ (id : String) (st : ParserState), (⟨id⟩ : BlankNode) ∉ st.used_bnodes →
      recognizeBlankNode (.labeled id) st =
        .ok (⟨id⟩,
          { st with currently_used_bnodes := st.currently_used_bnodes.insert ⟨id⟩ }) ∧
      recognizeBlankNode (.labeled id)
          { st with currently_used_bnodes := st.currently_used_bnodes.insert ⟨id⟩ } =
        .ok (⟨id⟩,
          { st with currently_used_bnodes := st.currently_used_bnodes.insert ⟨id⟩ })) ∧
    (∀ st : ParserState, recognizeBlankNode .anon st =
      .ok (freshBlankNode st.counter, { st with counter := st.counter + 1 })) := by
  refine ⟨?_, ?_, ?_⟩
  · intro id st h
    simp [recognizeBlankNode, h]
  · intro id st h
    constructor
    · simp [recognizeBlankNode, h]
    · simp only [recognizeBlankNode]
      rw [if_neg h]
      rw [List.insert_of_mem (List.mem_insert_self _ _)]
  · intro st
    rfl

/-- Witness for C4: the label x was used in a closed group, so a second
group mentioning it fails; a fresh label y succeeds. -/
theorem blank_node_scoping_witness :
    recognizeBlankNode (.labeled "x")
      { base_iri := none, namespaces := [], used_bnodes := [⟨"x"⟩],
        currently_used_bnodes := [], aggregates := [], counter := 0 } =
      .error "Already used blank node id" :=
  blank_node_scoping.1 "x" _ (by simp)

theorem subset_foldl_insert (l acc : List BlankNode) :
    acc ⊆ l.foldl (fun a b => a.insert b) acc := by
  induction l generalizing acc with
  | nil => exact fun a ha => ha
  | cons x xs ih =>
    intro a ha
    exact ih (acc.insert x) (List.mem_insert_of_mem ha)

/-- C5 counterexample: the Modify_clear transition, performed at the start
of every Modify operation, removes the label b from used_bnodes, so not
every state transition leaves used_bnodes intact or enlarged. -/
theorem used_bnodes_not_monotone_at_modify :
    ParserStateStep
      { base_iri := none, namespaces := [], used_bnodes := [⟨"b"⟩],
        currently_used_bnodes := [], aggregates := [], counter := 0 }
      (modifyClear
        { base_iri := none, namespaces := [], used_bnodes := [⟨"b"⟩],
          currently_used_bnodes := [], aggregates := [], counter := 0 }) ∧
    ¬ (({ base_iri := none, namespaces := [], used_bnodes := [⟨"b"⟩],
          currently_used_bnodes := [], aggregates := [], counter := 0 } :
            ParserState).used_bnodes ⊆
        (modifyClear
          { base_iri := none, namespaces := [], used_bnodes := [⟨"b"⟩],
            currently_used_bnodes := [], aggregates := [], counter := 0 }).used_bnodes) := by
  constructor
  · exact .modify _
  · intro h
    have hmem := h (show (⟨"b"⟩ : BlankNode) ∈ [⟨"b"⟩] by simp)
    simp [modifyClear] at hmem

/-- C5 (amended): every state transition reachable from parse_query leaves
used_bnodes unchanged or enlarges it; the one exception in parse_update is
the Modify rule's initial clearing, which resets used_bnodes to empty at
the start of each DELETE/INSERT WHERE operation. -/
theorem used_bnodes_monotone_amended :
    (∀ st st', QueryParserStateStep st st' → st.used_bnodes ⊆ st'.used_bnodes) ∧
    (∀ st, (modifyClear st).used_bnodes = []) := by
  constructor
  · intro st st' h
    cases h with
    | base iri st => exact fun a ha => ha
    | declNamespace ns i st => exact fun a ha => ha
    | selectionInit st => exact fun a ha => ha
    | selectPop st => exact fun a ha => ha
    | aggregation agg v st st' heq =>
      unfold new_aggregation at heq
      split at heq
      · cases heq
      · split at heq
        · cases heq
          exact fun a ha => ha
        · cases heq
          exact fun a ha => ha
    | blankNode tok b st st' heq =>
      cases tok with
      | labeled id =>
        simp only [recognizeBlankNode] at heq
        split at heq
        · cases heq
        · cases heq
          exact fun a ha => ha
      | anon =>
        simp only [recognizeBlankNode] at heq
        cases heq
        exact fun a ha => ha
    | groupClose st =>
      exact subset_foldl_insert _ _
  · intro st
    rfl

/-- Witness for C5 (amended): a concrete group-close transition keeps the
label b in used_bnodes. -/
theorem used_bnodes_monotone_amended_witness :
    ({ base_iri := none, namespaces := [], used_bnodes := [⟨"b"⟩],
       currently_used_bnodes := [⟨"c"⟩], aggregates := [], counter := 0 } :
         ParserState).used_bnodes ⊆
      (closeGroupBlankNodes
        { base_iri := none, namespaces := [], used_bnodes := [⟨"b"⟩],
          currently_used_bnodes := [⟨"c"⟩], aggregates := [], counter := 0 }).used_bnodes :=
  used_bnodes_monotone_amended.1 _ _ (.groupClose _)

mutual
theorem groundTermPattern?_of_no_blank : ∀ t : TermPattern,
    termPatternHasBlankNode t = false →
    ∃ g, groundTermPattern? t = some g ∧ g.toTermPattern = t
  | .NamedNode n, _ => ⟨.NamedNode n, rfl, rfl⟩
  | .BlankNode b, h => by simp [termPatternHasBlankNode] at h
  | .Literal l, _ => ⟨.Literal l, rfl, rfl⟩
  | .Variable v, _ => ⟨.Variable v, rfl, rfl⟩
  | .Triple t, h => by
    have ht : triplePatternHasBlankNode t = false := by
      simpa [termPatternHasBlankNode] using h
    obtain ⟨g, hg1, hg2⟩ := groundTriplePattern?_of_no_blank t ht
    exact ⟨.Triple g, by simp [groundTermPattern?, hg1],
      by simp [GroundTermPattern.toTermPattern, hg2]⟩
theorem groundTriplePattern?_of_no_blank : ∀ tp : TriplePattern,
    triplePatternHasBlankNode tp = false →
    ∃ g, groundTriplePattern? tp = some g ∧ g.toTriplePattern = tp
  | .mk s p o, h => by
    have hs : termPatternHasBlankNode s = false := by
      simp [triplePatternHasBlankNode] at h
      exact h.1
    have ho : termPatternHasBlankNode o = false := by
      simp [triplePatternHasBlankNode] at h
      exact h.2
    obtain ⟨gs, hgs1, hgs2⟩ := groundTermPattern?_of_no_blank s hs
    obtain ⟨go, hgo1, hgo2⟩ := groundTermPattern?_of_no_blank o ho
    exact ⟨.mk gs p go, by simp [groundTriplePattern?, hgs1, hgo1],
      by simp [GroundTriplePattern.toTriplePattern, hgs2, hgo2]⟩
end

mutual
theorem groundTermPattern?_none_of_blank : ∀ t : TermPattern,
    termPatternHasBlankNode t = true → groundTermPattern? t = none
  | .BlankNode b, _ => rfl
  | .NamedNode n, h => by simp [termPatternHasBlankNode] at h
  | .Literal l, h => by simp [termPatternHasBlankNode] at h
  | .Variable v, h => by simp [termPatternHasBlankNode] at h
  | .Triple t, h => by
    have := groundTriplePattern?_none_of_blank t (by simpa [termPatternHasBlankNode] using h)
    simp [groundTermPattern?, this]
theorem groundTriplePattern?_none_of_blank : ∀ tp : TriplePattern,
    triplePatternHasBlankNode tp = true → groundTriplePattern? tp = none
  | .mk s p o, h => by
    simp only [triplePatternHasBlankNode, Bool.or_eq_true] at h
    rcases h with hs | ho
    · simp [groundTriplePattern?, groundTermPattern?_none_of_blank s hs]
    · cases hgs : groundTermPattern? s with
      | none => simp [groundTriplePattern?, hgs]
      | some gs =>
        simp [groundTriplePattern?, hgs, groundTermPattern?_none_of_blank o ho]
end

theorem groundQuadPattern?_of_no_blank (q : QuadPattern) :
    quadPatternHasBlankNode q = false →
    ∃ g, groundQuadPattern? q = some g ∧ g.toQuadPattern = q := by
  intro h
  simp only [quadPatternHasBlankNode, Bool.or_eq_false_iff] at h
  obtain ⟨gs, hgs1, hgs2⟩ := groundTermPattern?_of_no_blank q.subject h.1
  obtain ⟨go, hgo1, hgo2⟩ := groundTermPattern?_of_no_blank q.object h.2
  exact ⟨{ subject := gs, predicate := q.predicate, object := go, graph_name := q.graph_name },
    by simp [groundQuadPattern?, hgs1, hgo1],
    by simp [GroundQuadPattern.toQuadPattern, hgs2, hgo2]⟩

theorem groundQuadPattern?_none_of_blank (q : QuadPattern) :
    quadPatternHasBlankNode q = true → groundQuadPattern? q = none := by
  intro h
  simp only [quadPatternHasBlankNode, Bool.or_eq_true] at h
  rcases h with hs | ho
  · simp [groundQuadPattern?, groundTermPattern?_none_of_blank q.subject hs]
  · cases hgs : groundTermPattern? q.subject with
    | none => simp [groundQuadPattern?, hgs]
    | some gs =>
      simp [groundQuadPattern?, hgs, groundTermPattern?_none_of_blank q.object ho]

theorem groundQuadPatterns?_of_no_blank (d : List QuadPattern) :
    quadsHaveBlankNode d = false →
    ∃ gs, groundQuadPatterns? d = some gs ∧
      gs.map GroundQuadPattern.toQuadPattern = d := by
  induction d with
  | nil => intro _; exact ⟨[], rfl, rfl⟩
  | cons q rest ih =>
    intro h
    simp only [quadsHaveBlankNode, List.any_cons, Bool.or_eq_false_iff] at h
    obtain ⟨g, hg1, hg2⟩ := groundQuadPattern?_of_no_blank q h.1
    obtain ⟨gs, hgs1, hgs2⟩ := ih (by simpa [quadsHaveBlankNode] using h.2)
    refine ⟨g :: gs, ?_, ?_⟩
    · simp [groundQuadPatterns?, hg1, hgs1]
    · simp [hg2, hgs2]

theorem groundQuadPatterns?_none_of_blank (d : List QuadPattern) :
    quadsHaveBlankNode d = true → groundQuadPatterns? d = none := by
  induction d with
  | nil => intro h; simp [quadsHaveBlankNode] at h
  | cons q rest ih =>
    intro h
    simp only [quadsHaveBlankNode, List.any_cons, Bool.or_eq_true] at h
    rcases h with hq | hrest
    · simp [groundQuadPatterns?, groundQuadPattern?_none_of_blank q hq]
    · cases hg : groundQuadPattern? q with
      | none => simp [groundQuadPatterns?, hg]
      | some g =>
        have := ih (by simpa [quadsHaveBlankNode] using hrest)
        simp [groundQuadPatterns?, hg, this]

/-- C6: DELETE WHERE fails with the blank-node error exactly when a blank
node occurs in the quads; otherwise it yields exactly one DeleteInsert
whose delete template equals the parsed quads (under the canonical
embedding of ground quads back into quad patterns), whose insert list is
empty, whose using dataset is None, and whose pattern is the new_join fold
of the per-quad single-triple BGPs, each wrapped in Graph when the quad
names a graph. -/
theorem delete_where_spec :
    (∀ d, quadsHaveBlankNode d = true →
      deleteWhereOperation d = .error "Blank nodes are not allowed in DELETE WHERE") ∧
    (∀ d, quadsHaveBlankNode d = false →
      ∃ gs, groundQuadPatterns? d = some gs ∧
        gs.map GroundQuadPattern.toQuadPattern = d ∧
        deleteWhereOperation d =
          .ok [.DeleteInsert gs [] none
            ((d.map quadPatternBgp).foldl new_join (.Bgp []))]) := by
  constructor
  · intro d h
    simp [deleteWhereOperation, groundQuadPatterns?_none_of_blank d h]
  · intro d h
    obtain ⟨gs, hg1, hg2⟩ := groundQuadPatterns?_of_no_blank d h
    exact ⟨gs, hg1, hg2, by simp [deleteWhereOperation, hg1]⟩

/-- Witness for C6: the quadruple b p o over the default graph, with a
blank-node subject, is rejected with the blank-node error message. -/
theorem delete_where_spec_witness :
    deleteWhereOperation
      [{ subject := .BlankNode ⟨"b"⟩, predicate := .NamedNode ⟨"p"⟩,
         object := .Variable ⟨"o"⟩, graph_name := .DefaultGraph }] =
      .error "Blank nodes are not allowed in DELETE WHERE" :=
  delete_where_spec.1 _
    (by simp [quadsHaveBlankNode, quadPatternHasBlankNode, termPatternHasBlankNode])

theorem freshVariable_injective {m n : Nat} (h : freshVariable m = freshVariable n) :
    m = n := by
  have hl := congrArg (fun v : Variable => v.name.data.length) h
  simpa [freshVariable] using hl

set_option maxHeartbeats 4000000 in
/-- C7: registering an aggregate while the aggregate stack is empty is a
parse error; registering one structurally equal to an entry of the top
frame returns that entry's variable and leaves the state unchanged;
registering a structurally new aggregate mints a fresh variable, appends
one entry and bumps the counter; two successive structurally new
registrations receive distinct variables; and the two SUM(?x) occurrences
of SELECT (SUM(?x)+SUM(?x) AS ?y) register exactly one aggregate,
the second occurrence reusing the first variable. -/
theorem new_aggregation_spec :
    (∀ agg st, st.aggregates = [] →
      new_aggregation agg st = .error "Unexpected aggregate") ∧
    (∀ agg st top rest v, st.aggregates = top :: rest →
      findAggregateVariable top agg = some v →
      new_aggregation agg st = .ok (v, st)) ∧
    (∀ agg st top rest, st.aggregates = top :: rest →
      findAggregateVariable top agg = none →
      new_aggregation agg st = .ok (freshVariable st.counter,
        { st with aggregates := (top ++ [(freshVariable st.counter, agg)]) :: rest,
                  counter := st.counter + 1 })) ∧
    (∀ agg1 agg2 st top rest v1 v2 st1 st2,
      st.aggregates = top :: rest →
      findAggregateVariable top agg1 = none →
      new_aggregation agg1 st = .ok (v1, st1) →
      findAggregateVariable (top ++ [(v1, agg1)]) agg2 = none →
      new_aggregation agg2 st1 = .ok (v2, st2) →
      v1 ≠ v2) ∧
    (new_aggregation (.Sum (.Variable ⟨"x"⟩) false)
        { base_iri := none, namespaces := [], used_bnodes := [],
          currently_used_bnodes := [], aggregates := [[]], counter := 0 } =
      .ok (freshVariable 0,
        { base_iri := none, namespaces := [], used_bnodes := [],
          currently_used_bnodes := [],
          aggregates := [[(freshVariable 0, .Sum (.Variable ⟨"x"⟩) false)]],
          counter := 1 }) ∧
     new_aggregation (.Sum (.Variable ⟨"x"⟩) false)
        { base_iri := none, namespaces := [], used_bnodes := [],
          currently_used_bnodes := [],
          aggregates := [[(freshVariable 0, .Sum (.Variable ⟨"x"⟩) false)]],
          counter := 1 } =
      .ok (freshVariable 0,
        { base_iri := none, namespaces := [], used_bnodes := [],
          currently_used_bnodes := [],
          aggregates := [[(freshVariable 0, .Sum (.Variable ⟨"x"⟩) false)]],
          counter := 1 })) := by
  have hmiss : ∀ agg st top rest, st.aggregates = top :: rest →
      findAggregateVariable top agg = none →
      new_aggregation agg st = .ok (freshVariable st.counter,
        { st with aggregates := (top ++ [(freshVariable st.counter, agg)]) :: rest,
                  counter := st.counter + 1 }) := by
    intro agg st top rest h1 h2
    simp [new_aggregation, h1, h2]
  refine ⟨?_, ?_, hmiss, ?_, ?_, ?_⟩
  · intro agg st h
    simp [new_aggregation, h]
  · intro agg st top rest v h1 h2
    simp [new_aggregation, h1, h2]
  · intro agg1 agg2 st top rest v1 v2 st1 st2 h1 hf1 hr1 hf2 hr2
    have e1 := hmiss agg1 st top rest h1 hf1
    rw [hr1] at e1
    simp only [Except.ok.injEq, Prod.mk.injEq] at e1
    obtain ⟨hv1, hst1⟩ := e1
    subst hv1
    subst hst1
    have e2 := hmiss agg2
      { st with aggregates := (top ++ [(freshVariable st.counter, agg1)]) :: rest,
                counter := st.counter + 1 } _ rest rfl hf2
    rw [hr2] at e2
    simp only [Except.ok.injEq, Prod.mk.injEq] at e2
    obtain ⟨hv2, -⟩ := e2
    subst hv2
    intro hcontra
    have := freshVariable_injective hcontra
    simp at this
  · simp [new_aggregation, findAggregateVariable]
  · simp only [new_aggregation, findAggregateVariable]
    rw [show beqAggregationFunction (.Sum (.Variable ⟨"x"⟩) false)
        (.Sum (.Variable ⟨"x"⟩) false) = true by
      simp [beqAggregationFunction, beqExpression]]
    simp

/-- Witness for C7: an aggregate outside any SELECT (empty stack) errors. -/
theorem new_aggregation_spec_witness :
    new_aggregation (.Count none false)
      { base_iri := none, namespaces := [], used_bnodes := [],
        currently_used_bnodes := [], aggregates := [], counter := 0 } =
      .error "Unexpected aggregate" :=
  new_aggregation_spec.1 _ _ rfl

/-- C1 (code bug): on the well-formed UTF-8 input backslash-u followed by
four euro signs, parse_query's preprocessor panics instead of returning a
result or error: after reading the escape, UnescapeUnicodeCharIterator
slices its buffer with the fixed byte range 1..5, and byte 5 falls strictly
inside the second three-byte character, so the Rust string slice panics
(the model returns none exactly there). -/
theorem unescape_panics_on_multibyte_escape :
    unescape_unicode_codepoints ['\\', 'u', '€', '€', '€', '€'] = none := by
  decide

theorem annotationsAllowed_nil (p : VariableOrPropertyPath) :
    annotationsAllowed p [] = true := by
  match p with
  | .Variable v => simp [annotationsAllowed, annotationPairsAllowed]
  | .PropertyPath pp =>
    induction pp with
    | NamedNode n => simp [annotationsAllowed, annotationPairsAllowed]
    | Reverse q ih => simpa [annotationsAllowed] using ih
    | Sequence a b iha ihb => simp [annotationsAllowed]
    | Alternative a b iha ihb => simp [annotationsAllowed]
    | ZeroOrOne q ih => simp [annotationsAllowed]
    | ZeroOrMore q ih => simp [annotationsAllowed]
    | OneOrMore q ih => simp [annotationsAllowed]
    | NegatedPropertySet l => simp [annotationsAllowed]

/-- C8 counterexample: an annotation block attached to an element whose
predicate position holds the property path ^p — a Reverse node, not a bare
IRI or variable — is accepted rather than rejected: the Reverse case
forwards the annotations while swapping subject and object, and the
annotation attaches to the reversed triple. -/
theorem annotation_on_reverse_path_accepted :
    add_to_triple_or_path_patterns (.Variable ⟨"s"⟩)
      (.PropertyPath (.Reverse (.NamedNode ⟨"p"⟩)))
      (.mk (.Variable ⟨"o"⟩)
        [(.PropertyPath (.NamedNode ⟨"q"⟩), [.mk (.Variable ⟨"r"⟩) []])])
      [] 0 =
    .ok ([.Triple (.mk
            (.Triple (.mk (.Variable ⟨"o"⟩) (.NamedNode ⟨"p"⟩) (.Variable ⟨"s"⟩)))
            (.NamedNode ⟨"q"⟩) (.Variable ⟨"r"⟩)),
          .Triple (.mk (.Variable ⟨"o"⟩) (.NamedNode ⟨"p"⟩) (.Variable ⟨"s"⟩))], 0) := by
  simp [add_to_triple_or_path_patterns, add_triple_to_triple_or_path_patterns,
    addAnnotationsToReifiedTriple, AnnotatedTermPath.annotations, AnnotatedTermPath.term]

/-- C8 (amended): attaching annotations succeeds exactly when
annotationsAllowed accepts every verb/annotation pairing: a bare IRI or
variable predicate accepts (recursively acceptable) annotations, Reverse
wrappers defer to the wrapped path while swapping subject and object, and a
Sequence or any other path shape in predicate position accepts only an
empty annotation list; every failure carries the error "Annotations are not
allowed on property paths". -/
theorem add_to_triple_or_path_patterns_spec : ∀ s p o pats n,
    exceptIsOk (add_to_triple_or_path_patterns s p o pats n) =
      annotationsAllowed p o.annotations ∧
    ∀ e, add_to_triple_or_path_patterns s p o pats n = .error e →
      e = "Annotations are not allowed on property paths" := by
  apply @add_to_triple_or_path_patterns.induct
    (fun s p o pats n =>
      exceptIsOk (add_to_triple_or_path_patterns s p o pats n) =
        annotationsAllowed p o.annotations ∧
      ∀ e, add_to_triple_or_path_patterns s p o pats n = .error e →
        e = "Annotations are not allowed on property paths")
    (fun s p o pats n =>
      exceptIsOk (add_triple_to_triple_or_path_patterns s p o pats n) =
        annotationPairsAllowed o.annotations ∧
      ∀ e, add_triple_to_triple_or_path_patterns s p o pats n = .error e →
        e = "Annotations are not allowed on property paths")
    (fun t anns pats n =>
      exceptIsOk (addAnnotationsToReifiedTriple t anns pats n) =
        annotationPairsAllowed anns ∧
      ∀ e, addAnnotationsToReifiedTriple t anns pats n = .error e →
        e = "Annotations are not allowed on property paths")
  -- predicate is a variable
  · intro s o pats n p ih
    simpa only [add_to_triple_or_path_patterns, annotationsAllowed] using ih
  -- predicate is a named node
  · intro s o pats n p ih
    simpa only [add_to_triple_or_path_patterns, annotationsAllowed] using ih
  -- Reverse defers to the wrapped path, annotations intact
  · intro s o pats n p ih
    simp only [add_to_triple_or_path_patterns, annotationsAllowed]
    simpa only [AnnotatedTermPath.annotations] using ih
  -- Sequence with nonempty annotations errors
  · intro s o pats n a b head tail h
    constructor
    · simp only [add_to_triple_or_path_patterns, annotationsAllowed]
      split
      · simp [exceptIsOk, h]
      · simp_all
    · intro e he
      simp only [add_to_triple_or_path_patterns] at he
      split at he
      · simp_all
      · simp_all
  -- Sequence whose first recursive call errors: impossible, since empty
  -- annotation lists always succeed
  · intro s o pats n a b h middle e he ih
    exfalso
    have h1 := ih.1
    rw [he] at h1
    simp [exceptIsOk, AnnotatedTermPath.annotations, annotationsAllowed_nil] at h1
  -- Sequence whose first call succeeds
  · intro s o pats n a b h middle patterns1 fresh1 hok ih1 ih2
    have g2 := ih2
    simp only [AnnotatedTermPath.annotations] at g2
    constructor
    · simp only [add_to_triple_or_path_patterns, annotationsAllowed]
      split
      · simp_all
      · rw [hok]
        simp only [g2.1, annotationsAllowed_nil, h, List.isEmpty_nil]
    · intro e he
      simp only [add_to_triple_or_path_patterns] at he
      split at he
      · simp_all
      · rw [hok] at he
        exact g2.2 e he
  -- other path shapes with nonempty annotations error
  · intro s o pats n path hnn hrev hseq head tail h
    cases path with
    | NamedNode p => exact absurd rfl (hnn p)
    | Reverse p => exact absurd rfl (hrev p)
    | Sequence a b => exact absurd rfl (hseq a b)
    | Alternative a b =>
      constructor
      · simp only [add_to_triple_or_path_patterns, annotationsAllowed]
        split
        · simp [exceptIsOk, h]
        · simp_all
      · intro e he
        simp only [add_to_triple_or_path_patterns] at he
        split at he
        · simp_all
        · simp_all
    | ZeroOrOne p =>
      constructor
      · simp only [add_to_triple_or_path_patterns, annotationsAllowed]
        split
        · simp [exceptIsOk, h]
        · simp_all
      · intro e he
        simp only [add_to_triple_or_path_patterns] at he
        split at he
        · simp_all
        · simp_all
    | ZeroOrMore p =>
      constructor
      · simp only [add_to_triple_or_path_patterns, annotationsAllowed]
        split
        · simp [exceptIsOk, h]
        · simp_all
      · intro e he
        simp only [add_to_triple_or_path_patterns] at he
        split at he
        · simp_all
        · simp_all
    | OneOrMore p =>
      constructor
      · simp only [add_to_triple_or_path_patterns, annotationsAllowed]
        split
        · simp [exceptIsOk, h]
        · simp_all
      · intro e he
        simp only [add_to_triple_or_path_patterns] at he
        split at he
        · simp_all
        · simp_all
    | NegatedPropertySet l =>
      constructor
      · simp only [add_to_triple_or_path_patterns, annotationsAllowed]
        split
        · simp [exceptIsOk, h]
        · simp_all
      · intro e he
        simp only [add_to_triple_or_path_patterns] at he
        split at he
        · simp_all
        · simp_all
  -- other path shapes with empty annotations succeed
  · intro s o pats n path hnn hrev hseq h
    cases path with
    | NamedNode p => exact absurd rfl (hnn p)
    | Reverse p => exact absurd rfl (hrev p)
    | Sequence a b => exact absurd rfl (hseq a b)
    | Alternative a b =>
      constructor
      · simp only [add_to_triple_or_path_patterns, annotationsAllowed]
        split
        · simp_all
        · simp [exceptIsOk, h]
      · intro e he
        simp only [add_to_triple_or_path_patterns] at he
        split at he
        · simp_all
        · simp_all
    | ZeroOrOne p =>
      constructor
      · simp only [add_to_triple_or_path_patterns, annotationsAllowed]
        split
        · simp_all
        · simp [exceptIsOk, h]
      · intro e he
        simp only [add_to_triple_or_path_patterns] at he
        split at he
        · simp_all
        · simp_all
    | ZeroOrMore p =>
      constructor
      · simp only [add_to_triple_or_path_patterns, annotationsAllowed]
        split
        · simp_all
        · simp [exceptIsOk, h]
      · intro e he
        simp only [add_to_triple_or_path_patterns] at he
        split at he
        · simp_all
        · simp_all
    | OneOrMore p =>
      constructor
      · simp only [add_to_triple_or_path_patterns, annotationsAllowed]
        split
        · simp_all
        · simp [exceptIsOk, h]
      · intro e he
        simp only [add_to_triple_or_path_patterns] at he
        split at he
        · simp_all
        · simp_all
    | NegatedPropertySet l =>
      constructor
      · simp only [add_to_triple_or_path_patterns, annotationsAllowed]
        split
        · simp_all
        · simp [exceptIsOk, h]
      · intro e he
        simp only [add_to_triple_or_path_patterns] at he
        split at he
        · simp_all
        · simp_all
  -- add_triple: the annotation pass errors
  · intro s p o pats n e hpe ih
    have h1 := ih.1
    rw [hpe] at h1
    constructor
    · simp only [add_triple_to_triple_or_path_patterns, hpe, exceptIsOk]
      simpa [exceptIsOk] using h1
    · intro e2 he2
      simp only [add_triple_to_triple_or_path_patterns, hpe] at he2
      cases he2
      exact ih.2 e hpe
  -- add_triple: the annotation pass succeeds
  · intro s p o pats n patterns1 fresh1 hok ih
    have h1 := ih.1
    rw [hok] at h1
    constructor
    · simp only [add_triple_to_triple_or_path_patterns, hok, exceptIsOk]
      simpa [exceptIsOk] using h1
    · intro e he
      simp only [add_triple_to_triple_or_path_patterns, hok] at he
      cases he
  -- annotation pass: empty list
  · intro t pats n
    simp [addAnnotationsToReifiedTriple, annotationPairsAllowed, exceptIsOk]
  -- annotation pass: exhausted objects of the head verb
  · intro t pats n fst rest ih
    simpa only [addAnnotationsToReifiedTriple, annotationPairsAllowed,
      annotationObjectsAllowed, Bool.true_and] using ih
  -- annotation pass: attaching the head object errors
  · intro t pats n p o os rest e herr ih
    have h1 := ih.1
    rw [herr] at h1
    constructor
    · simp only [addAnnotationsToReifiedTriple, herr, exceptIsOk,
        annotationPairsAllowed, annotationObjectsAllowed]
      simp [exceptIsOk] at h1
      simp [h1]
    · intro e2 he2
      simp only [addAnnotationsToReifiedTriple, herr] at he2
      cases he2
      exact ih.2 e herr
  -- annotation pass: attaching the head object succeeds
  · intro t pats n p o os rest patterns1 fresh1 hok ih1 ih3
    have h1 := ih1.1
    rw [hok] at h1
    constructor
    · simp only [addAnnotationsToReifiedTriple, hok, annotationPairsAllowed,
        annotationObjectsAllowed]
      simp [exceptIsOk] at h1
      simpa only [annotationPairsAllowed, annotationObjectsAllowed, h1,
        Bool.true_and] using ih3.1
    · intro e he
      simp only [addAnnotationsToReifiedTriple, hok] at he
      exact ih3.2 e he

/-- Witness for C8 (amended): an annotation attached over a ZeroOrOne path
fails, and both sides of the characterization evaluate on that input. -/
theorem add_to_triple_or_path_patterns_spec_witness :
    exceptIsOk (add_to_triple_or_path_patterns (.Variable ⟨"s"⟩)
        (.PropertyPath (.ZeroOrOne (.NamedNode ⟨"p"⟩)))
        (.mk (.Variable ⟨"o"⟩) [(.Variable ⟨"v"⟩, [.mk (.Variable ⟨"r"⟩) []])]) [] 0) =
      annotationsAllowed (.PropertyPath (.ZeroOrOne (.NamedNode ⟨"p"⟩)))
        (AnnotatedTermPath.mk (.Variable ⟨"o"⟩)
          [(.Variable ⟨"v"⟩, [.mk (.Variable ⟨"r"⟩) []])]).annotations ∧
    ("Annotations are not allowed on property paths" : String) =
      "Annotations are not allowed on property paths" :=
  ⟨(add_to_triple_or_path_patterns_spec (.Variable ⟨"s"⟩)
      (.PropertyPath (.ZeroOrOne (.NamedNode ⟨"p"⟩)))
      (.mk (.Variable ⟨"o"⟩) [(.Variable ⟨"v"⟩, [.mk (.Variable ⟨"r"⟩) []])]) [] 0).1,
   (add_to_triple_or_path_patterns_spec (.Variable ⟨"s"⟩)
      (.PropertyPath (.ZeroOrOne (.NamedNode ⟨"p"⟩)))
      (.mk (.Variable ⟨"o"⟩) [(.Variable ⟨"v"⟩, [.mk (.Variable ⟨"r"⟩) []])]) [] 0).2
    "Annotations are not allowed on property paths"
    (by simp [add_to_triple_or_path_patterns, AnnotatedTermPath.annotations])⟩
